import Mathlib

/-!
Verification of the analysis utilities of the seoss-t5 repository
(`src/seq2seq/eval_spider/analyse_dataset.py` and
`src/seq2seq/eval_spider/format_predictions.py`).

The Python data the scripts traverse is untyped JSON, so the embedding
uses a JSON-like value type `Val` together with Python-faithful helper
operations (truthiness, dict `.get`, list indexing, `len`, `str`).
Operations that would raise a Python exception (KeyError, IndexError,
TypeError on a non-indexable value, out-of-range list index) are
modelled by `Option`: a crash is `none`.

Modelling notes (pathological inputs outside the ParsedQuery data model):
iterating or testing membership on a *string*-valued clause, and `str()`
of a container value, are modelled as failures (`none`) rather than by
emulating Python's character iteration / `repr`; no claim depends on
such inputs.
-/

namespace SeossT5

/-- A Python/JSON-like value. -/
inductive Val where
  | vnull : Val
  | vbool : Bool → Val
  | vint : Int → Val
  | vstr : String → Val
  | vlist : List Val → Val
  | vdict : List (String × Val) → Val

/-- Python truthiness of a value. -/
def truthy : Val → Bool
  | .vnull => false
  | .vbool b => b
  | .vint n => n != 0
  | .vstr s => s != ""
  | .vlist xs => !xs.isEmpty
  | .vdict d => !d.isEmpty

/-- Python `dict.get(k)`: `None` when the key is absent. -/
def dictGet (d : List (String × Val)) (k : String) : Val :=
  match d.find? (fun e => e.1 == k) with
  | some e => e.2
  | none => .vnull

/-- Python `dict.get(k, dflt)`. -/
def dictGetD (d : List (String × Val)) (k : String) (dflt : Val) : Val :=
  match d.find? (fun e => e.1 == k) with
  | some e => e.2
  | none => dflt

/-- Python `v[k]` on a dict value: KeyError (or TypeError) is `none`. -/
def pyGetItem (v : Val) (k : String) : Option Val :=
  match v with
  | .vdict d => (d.find? (fun e => e.1 == k)).map (fun e => e.2)
  | _ => none

/-- Python `v[i]` for a non-negative index on a list value; anything else
(and an out-of-range index) is a crash. -/
def pyIndexVal (v : Val) (i : Nat) : Option Val :=
  match v with
  | .vlist xs => xs.get? i
  | _ => none

/-- Python list indexing into a list of strings, with Python's negative-index
semantics; out of range is a crash (`none`). -/
def pyStrListIndex (xs : List String) (n : Int) : Option String :=
  let i : Int := if n < 0 then n + xs.length else n
  if 0 ≤ i then xs.get? i.toNat else none

/-- The numeric view of a value: Python treats `bool` as an `int`. -/
def asInt : Val → Option Int
  | .vbool b => some (if b then 1 else 0)
  | .vint n => some n
  | _ => none

/-- Python `len(v)` for sized values. -/
def pyLen : Val → Option Nat
  | .vstr s => some s.length
  | .vlist xs => some xs.length
  | .vdict d => some d.length
  | _ => none

/-- Python `str(v)` for scalar values (containers are not modelled). -/
def pyStr : Val → Option String
  | .vnull => some "None"
  | .vbool b => some (if b then "True" else "False")
  | .vint n => some (toString n)
  | .vstr s => some s
  | _ => none

/-- Whether a value is a Python `str` (`type(v) == str`). -/
def isStr : Val → Bool
  | .vstr _ => true
  | _ => false

/-- Whether a value is a Python `dict` (`type(v) == dict`). -/
def isDict : Val → Bool
  | .vdict _ => true
  | _ => false

/-- Expect a list value (Python iteration over a non-list crashes here). -/
def expectList : Val → Option (List Val)
  | .vlist xs => some xs
  | _ => none

/-- Expect a string value. -/
def expectStr : Val → Option String
  | .vstr s => some s
  | _ => none

/-- Expect a dict value. -/
def expectDict : Val → Option (List (String × Val))
  | .vdict d => some d
  | _ => none

/-! ## Hardness classifier (`eval_hardness`, analyse_dataset.py lines 10-25)

The three complexity counters are produced by the external `evaluation`
module (`count_component1`, `count_component2`, `count_others`), which is
outside this repository; `eval_hardness` is therefore embedded as a pure
function of the three non-negative counters, in the order
(component1, component2, others). -/

/-- Condition of the first branch of `eval_hardness` (the `easy` rule). -/
abbrev easyCond (c1 c2 others : Nat) : Prop :=
  c1 ≤ 1 ∧ others = 0 ∧ c2 = 0

/-- Condition of the second branch of `eval_hardness` (the `medium` rule). -/
abbrev mediumCond (c1 c2 others : Nat) : Prop :=
  (others ≤ 2 ∧ c1 ≤ 1 ∧ c2 = 0) ∨ (c1 ≤ 2 ∧ others < 2 ∧ c2 = 0)

/-- Condition of the third branch of `eval_hardness` (the `hard` rule). -/
abbrev hardCond (c1 c2 others : Nat) : Prop :=
  (others > 2 ∧ c1 ≤ 2 ∧ c2 = 0) ∨ (2 < c1 ∧ c1 ≤ 3 ∧ others ≤ 2 ∧ c2 = 0) ∨
    (c1 ≤ 1 ∧ others = 0 ∧ c2 ≤ 1)

/-- `eval_hardness` from analyse_dataset.py, as a function of the counters. -/
def eval_hardness (count_comp1_ count_comp2_ count_others_ : Nat) : String :=
  if easyCond count_comp1_ count_comp2_ count_others_ then "easy"
  else if mediumCond count_comp1_ count_comp2_ count_others_ then "medium"
  else if hardCond count_comp1_ count_comp2_ count_others_ then "hard"
  else "extra"

/-- The classifier as the spec's section 4.1 words it: an ordered decision
list evaluated first-match-wins over (component1, component2, others). -/
def spec_classify (component1 component2 others : Nat) : String :=
  if component1 ≤ 1 ∧ others = 0 ∧ component2 = 0 then "easy"
  else if (others ≤ 2 ∧ component1 ≤ 1 ∧ component2 = 0) ∨
      (component1 ≤ 2 ∧ others < 2 ∧ component2 = 0) then "medium"
  else if (others > 2 ∧ component1 ≤ 2 ∧ component2 = 0) ∨
      (2 < component1 ∧ component1 ≤ 3 ∧ others ≤ 2 ∧ component2 = 0) ∨
      (component1 ≤ 1 ∧ others = 0 ∧ component2 ≤ 1) then "hard"
  else "extra"

/-- The same rules evaluated with rule 3 hoisted before rules 1 and 2:
used to show that the first-match order is load-bearing. -/
def hardness_rule3_first (c1 c2 others : Nat) : String :=
  if hardCond c1 c2 others then "hard"
  else if easyCond c1 c2 others then "easy"
  else if mediumCond c1 c2 others then "medium"
  else "extra"

/-! ## Clause summarizer (`form_clause_str`, analyse_dataset.py lines 28-124) -/

/-- The module-level aggregation-operator table `AGG_OPS`. -/
def AGG_OPS : List String := ["none", "max", "min", "count", "sum", "avg"]

/-- The `AGG_OPS[v] + " "` token appended under a `v != 0` guard: empty for
the `none` aggregation (index 0), a crash when `v` is not a number or the
index is out of range. -/
def aggTok (v : Val) : Option String :=
  match asInt v with
  | some n => if n = 0 then some "" else (pyStrListIndex AGG_OPS n).map (fun a => a ++ " ")
  | none => none

/-- The aggregation tokens collected by the `for unit in select[1]` loop:
`unit[0]`'s aggregation token for each unit, in order. -/
def selectAggs : List Val → Option String
  | [] => some ""
  | u :: rest => do
    let u0 ← pyIndexVal u 0
    let t ← aggTok u0
    let r ← selectAggs rest
    pure (t ++ r)

/-- The select fragment: `"SELECT "`, then `"DISTINCT "` if `select[0]` is
truthy, then the aggregation tokens of `select[1]`. -/
def selectFrag (select : Val) : Option String := do
  let s0 ← pyIndexVal select 0
  let s1 ← pyIndexVal select 1
  let units ← expectList s1
  let aggs ← selectAggs units
  pure ("SELECT " ++ (if truthy s0 then "DISTINCT " else "") ++ aggs)

/-- `len(from_clause.get('table_units', []))`. -/
def tableCount (fromClause : Val) : Option Nat :=
  match fromClause with
  | .vdict d => pyLen (dictGetD d "table_units" (.vlist []))
  | _ => none

/-- Whether the token `t` occurs in the unit sequence (`t in units` for a
string `t`: equality only holds against equal strings). -/
def hasTok (t : String) (xs : List Val) : Bool :=
  xs.any (fun v => match v with | .vstr s => s == t | _ => false)

/-- The scan `for unit in units: if type(unit) != str and (type(unit[3]) ==
dict or type(unit[4]) == dict): ... break`, returning whether a subquery
was found; indexing a malformed unit crashes. -/
def subqScan : List Val → Option Bool
  | [] => some false
  | u :: rest =>
    if isStr u then subqScan rest
    else
      match pyIndexVal u 3 with
      | none => none
      | some e3 =>
        if isDict e3 then some true
        else
          match pyIndexVal u 4 with
          | none => none
          | some e4 => if isDict e4 then some true else subqScan rest

/-- The where fragment: empty when the clause is absent or falsy, otherwise
`"WHERE "` plus the connective tokens plus `"SUBQUERY "` when the scan finds
a nested dict. -/
def whereFrag (w : Val) : Option String :=
  if truthy w then do
    let units ← expectList w
    let sub ← subqScan units
    pure ("WHERE " ++ (if hasTok "and" units then "AND " else "")
      ++ (if hasTok "or" units then "OR " else "")
      ++ (if sub then "SUBQUERY " else ""))
  else some ""

/-- The aggregation tokens collected by having's first loop: for each
non-string unit, `unit[2][1][0]`'s token, then `unit[2][2][0]`'s token when
`unit[2][2]` is truthy. -/
def havingAggs : List Val → Option String
  | [] => some ""
  | u :: rest =>
    if isStr u then havingAggs rest
    else do
      let e2 ← pyIndexVal u 2
      let e21 ← pyIndexVal e2 1
      let e210 ← pyIndexVal e21 0
      let t1 ← aggTok e210
      let e22 ← pyIndexVal e2 2
      let t2 ← if truthy e22 then do
          let e220 ← pyIndexVal e22 0
          aggTok e220
        else some ""
      let r ← havingAggs rest
      pure (t1 ++ t2 ++ r)

/-- The having fragment: `"HAVING "`, the connective tokens, the aggregation
tokens, then `"SUBQUERY "` when the scan finds a nested dict. -/
def havingFrag (h : Val) : Option String :=
  if truthy h then do
    let units ← expectList h
    let aggs ← havingAggs units
    let sub ← subqScan units
    pure ("HAVING " ++ (if hasTok "and" units then "AND " else "")
      ++ (if hasTok "or" units then "OR " else "")
      ++ aggs ++ (if sub then "SUBQUERY " else ""))
  else some ""

/-- The order-by fragment: `f"ORDER BY {order_by[0]} "` when truthy. -/
def orderByFrag (ob : Val) : Option String :=
  if truthy ob then do
    let e0 ← pyIndexVal ob 0
    let s ← pyStr e0
    pure ("ORDER BY " ++ s ++ " ")
  else some ""

/-- The limit fragment: `f"LIMIT {str(limit)} "` when truthy. -/
def limitFrag (l : Val) : Option String :=
  if truthy l then (pyStr l).map (fun s => "LIMIT " ++ s ++ " ")
  else some ""

/-- A keyword-only fragment (group-by, union, intersect, except): the
keyword when the clause is truthy, empty otherwise. -/
def kwFrag (kw : String) (v : Val) : String :=
  if truthy v then kw else ""

/-- `if truthy: no_clauses += 1` for one optional clause key. -/
def clauseInc (sql_dict : List (String × Val)) (k : String) : Nat :=
  if truthy (dictGet sql_dict k) then 1 else 0

/-- The running `no_clauses` counter: `0 + 1` for select, `+ 1` for from,
and one more per truthy optional clause, in source order. -/
def no_clauses (sql_dict : List (String × Val)) : Nat :=
  0 + 1 + 1 + clauseInc sql_dict "where" + clauseInc sql_dict "groupBy"
    + clauseInc sql_dict "having" + clauseInc sql_dict "orderBy"
    + clauseInc sql_dict "limit" + clauseInc sql_dict "union"
    + clauseInc sql_dict "intersect" + clauseInc sql_dict "except"

/-- The eight optional clause keys, in the order the summarizer visits them. -/
def optKeys : List String :=
  ["where", "groupBy", "having", "orderBy", "limit", "union", "intersect", "except"]

/-- The number of truthy optional clauses of a query dict. -/
def optCount (sql_dict : List (String × Val)) : Nat :=
  optKeys.countP (fun k => truthy (dictGet sql_dict k))

/-- `form_clause_str` from analyse_dataset.py: the delimiter-separated
clause summary of a query dict (the driver passes delimiter `"|"`). -/
def form_clause_str (sql_dict : List (String × Val)) (delimiter : String) :
    Option String := do
  let sel ← selectFrag (dictGet sql_dict "select")
  let nt ← tableCount (dictGet sql_dict "from")
  let w ← whereFrag (dictGet sql_dict "where")
  let h ← havingFrag (dictGet sql_dict "having")
  let ob ← orderByFrag (dictGet sql_dict "orderBy")
  let lim ← limitFrag (dictGet sql_dict "limit")
  pure (sel ++ delimiter ++ "FROM " ++ delimiter ++ toString nt ++ delimiter
    ++ w ++ delimiter ++ kwFrag "GROUP BY " (dictGet sql_dict "groupBy") ++ delimiter
    ++ h ++ delimiter ++ ob ++ delimiter ++ lim ++ delimiter
    ++ kwFrag "UNION " (dictGet sql_dict "union") ++ delimiter
    ++ kwFrag "INTERSECT " (dictGet sql_dict "intersect") ++ delimiter
    ++ kwFrag "EXCEPT " (dictGet sql_dict "except") ++ delimiter
    ++ toString (no_clauses sql_dict))

/-- A minimal well-formed query dict: only select (no distinct, no
aggregations) and from (one table unit) are populated. -/
def minimalSql : List (String × Val) :=
  [("select", .vlist [.vbool false, .vlist []]),
   ("from", .vdict [("table_units", .vlist [.vlist [.vstr "table_unit", .vstr "t"]])])]

/-- The number of occurrences of a character in a string. -/
def countChar (s : String) (c : Char) : Nat := s.data.count c

/-- A query dict that additionally binds `limit` to the falsy value 0. -/
def sqlLimit0 : List (String × Val) := ("limit", .vint 0) :: minimalSql

/-- Whether a condition unit is a non-string value carrying a nested dict
(subquery) at positional element 3 or 4: the predicate the `SUBQUERY` scan
looks for. -/
def condHasSubq (u : Val) : Bool :=
  !(isStr u) &&
    ((match pyIndexVal u 3 with | some e => isDict e | none => false) ||
     (match pyIndexVal u 4 with | some e => isDict e | none => false))

/-- The number of occurrences of `pat` as a contiguous sublist of `l`,
counted by start position. -/
def countOcc (pat l : List Char) : Nat :=
  (List.range (l.length + 1)).countP (fun i => decide (pat <+: l.drop i))

/-- Substring containment of `pat` in `s`. -/
abbrev hasSub (pat s : String) : Prop := pat.data <:+: s.data

/-- A concrete where clause holding just the connective token `and`. -/
def whereW : List Val := [.vstr "and"]

/-- Python `s.split(sep)` for a non-empty separator, on character lists:
`go` consumes one character of fuel per step; at each position a separator
match cuts a new segment and skips the separator. -/
def pySplitGo (sep : List Char) : Nat → List Char → List (List Char)
  | _, [] => [[]]
  | 0, s => [s]
  | Nat.succ fuel, c :: rest =>
    if sep <+: (c :: rest) then
      [] :: pySplitGo sep fuel (List.drop (sep.length - 1) rest)
    else
      match pySplitGo sep fuel rest with
      | [] => [[c]]
      | g :: gs => (c :: g) :: gs

/-- Python `s.split(sep)`: the empty separator is a `ValueError` in Python
and never occurs here; it is mapped to the unsplit list. -/
def pySplit (sep s : List Char) : List (List Char) :=
  if sep = [] then [s] else pySplitGo sep s.length s

/-- Python `s.split(sep)` on strings. -/
def pySplitStr (sep s : String) : List String :=
  (pySplit sep.data s.data).map String.mk

/-- `p['prediction'].split('| ')[-1]` for one prediction record: the last
segment of the prediction string split on the two-character separator. -/
def extractPrediction (p : Val) : Option String := do
  let v ← pyGetItem p "prediction"
  let s ← expectStr v
  (pySplitStr "| " s).getLast?

/-- Sequential traversal of a list under `Option`, in input order
(the embedding of the Python comprehension/loop: any crash aborts all). -/
def optionMap (f : α → Option β) : List α → Option (List β)
  | [] => some []
  | a :: l => do
    let b ← f a
    let bs ← optionMap f l
    pure (b :: bs)

/-- `format_predictions` from format_predictions.py: the list of output
lines (one formatted query per record, in input order). -/
def format_predictions (preds : List Val) : Option (List String) :=
  optionMap extractPrediction preds

/-- `os.path.dirname` for POSIX paths. -/
def pyDirname (p : String) : String :=
  let cs := p.data
  let tailLen := (cs.reverse.takeWhile (fun c => c ≠ '/')).length
  let head := cs.take (cs.length - tailLen)
  if head ≠ [] ∧ ¬ (head.all (fun c => c = '/')) then
    String.mk ((head.reverse.dropWhile (fun c => c = '/')).reverse)
  else String.mk head

/-- Whether `pre` is a prefix of `s` (computable on character lists). -/
def strStartsWith (pre s : String) : Bool := pre.data.isPrefixOf s.data

/-- Whether `suf` is a suffix of `s` (computable on character lists). -/
def strEndsWith (suf s : String) : Bool := suf.data.reverse.isPrefixOf s.data.reverse

/-- `os.path.join(a, b)` for POSIX paths and a single component `b`. -/
def pyJoin (a b : String) : String :=
  if strStartsWith "/" b then b
  else if a = "" ∨ strEndsWith "/" a then a ++ b
  else a ++ "/" ++ b

/-- `get_sql_predictions_filename` from format_predictions.py. -/
def get_sql_predictions_filename (predictions_filename : String) : String :=
  pyJoin (pyDirname predictions_filename) "predictions.sql"

/-- The input file of `analyse_dataset`: the dataset directory plus
`spider-DK.json` for the `spider_dk` dataset and `dev.json` otherwise. -/
def dataset_input_file (dataset_name : String) : String :=
  "../../dataset_files/ori_dataset/" ++ dataset_name ++ "/"
    ++ (if dataset_name = "spider_dk" then "spider-DK.json" else "dev.json")

/-- The output file of `analyse_dataset`. -/
def dataset_out_file (dataset_name : String) : String :=
  "../../dataset_files/statistics/" ++ dataset_name ++ ".txt"

/-- The per-record report line built by the `analyse_dataset` loop:
query, question, hardness, clause summary, then the two character
lengths, joined as in the source (three ` {delimiter} ` separators, then
` {delimiter}` before each length). -/
def mkInstanceStr (delimiter query question hardness clause : String) : String :=
  query ++ " " ++ delimiter ++ " "
    ++ question ++ " " ++ delimiter ++ " "
    ++ hardness ++ " " ++ delimiter ++ " "
    ++ clause ++ " " ++ delimiter
    ++ toString query.length ++ " " ++ delimiter
    ++ toString question.length

/-- The body of the `for i in instances` loop of `analyse_dataset`, for one
record, parameterized by the three opaque counter functions of the external
`evaluation` module. -/
def analyse_instance (c1 c2 co : Val → Nat) (delimiter : String) (i : Val) :
    Option String := do
  let q ← pyGetItem i "query"
  let qs ← expectStr q
  let qu ← pyGetItem i "question"
  let qus ← expectStr qu
  let sqlv ← pyGetItem i "sql"
  let sqld ← expectDict sqlv
  let clause ← form_clause_str sqld delimiter
  pure (mkInstanceStr delimiter qs qus
    (eval_hardness (c1 sqlv) (c2 sqlv) (co sqlv)) clause)

/-- The report lines of `analyse_dataset` (driver delimiter `"|"`), in
input order. -/
def analyse_lines (c1 c2 co : Val → Nat) (instances : List Val) :
    Option (List String) :=
  optionMap (analyse_instance c1 c2 co "|") instances

/-- The CLI dispatch outcome of an entry point. -/
inductive CliAction where
  | usageMsg : String → CliAction
  | runWith : String → CliAction
deriving DecidableEq

/-- The `__main__` block of analyse_dataset.py: `argv` is the full
`sys.argv` (program name first), so exactly one argument means length 2. -/
def analyse_dataset_main (argv : List String) : CliAction :=
  if argv.length ≠ 2 then
    .usageMsg "analyse_dataset() takes 1 argument: the dataset name, e.g. spider"
  else .runWith (argv.getD 1 "")

/-- The `__main__` block of format_predictions.py. -/
def format_predictions_main (argv : List String) : CliAction :=
  if argv.length ≠ 2 then
    .usageMsg "format_predictions() takes 1 argument: the predictions filename"
  else .runWith (argv.getD 1 "")

/-- The one-record dataset of C8's end-to-end example. -/
def record8 : Val :=
  .vdict [("query", .vstr "SELECT a FROM t"), ("question", .vstr "q?"),
    ("sql", .vdict minimalSql)]

/-- The report line the driver produces for `record8` under zero counters. -/
def line8 : String :=
  "SELECT a FROM t | q? | easy | SELECT |FROM |1|||||||||2 |15 |2"

/-- C1: for every triple of non-negative counters (component1, component2,
others), `eval_hardness` agrees with the spec's ordered first-match-wins
decision list, always returns one of the four labels, and in particular
classifies (1,0,0) as easy, (2,0,0) as medium, (3,0,2) as hard and
(4,1,3) as extra. -/
theorem eval_hardness_decision_list :
    (∀ c1 c2 others : Nat,
      eval_hardness c1 c2 others = spec_classify c1 c2 others ∧
      (eval_hardness c1 c2 others = "easy" ∨ eval_hardness c1 c2 others = "medium" ∨
        eval_hardness c1 c2 others = "hard" ∨ eval_hardness c1 c2 others = "extra")) ∧
    eval_hardness 1 0 0 = "easy" ∧ eval_hardness 2 0 0 = "medium" ∧
    eval_hardness 3 0 2 = "hard" ∧ eval_hardness 4 1 3 = "extra" := by
  refine ⟨fun c1 c2 others => ⟨rfl, ?_⟩, by decide, by decide, by decide, by decide⟩
  unfold eval_hardness
  split_ifs <;> simp

/-- C3: rule 1's region is contained in both rule 2's and rule 3's regions,
and evaluating rule 3 before rule 1 changes the output on some triple, so
the first-match order of `eval_hardness` is load-bearing. -/
theorem hardness_rules_overlap :
    (∀ c1 c2 others : Nat, easyCond c1 c2 others →
      mediumCond c1 c2 others ∧ hardCond c1 c2 others) ∧
    (∃ c1 c2 others : Nat,
      hardness_rule3_first c1 c2 others ≠ eval_hardness c1 c2 others) := by
  constructor
  · intro c1 c2 others h
    constructor
    · left
      omega
    · right; right
      omega
  · exact ⟨1, 0, 0, by decide⟩

/-- Witness for C3's overlap theorem at the concrete triple (1,0,0). -/
theorem hardness_rules_overlap_w :
    easyCond 1 0 0 ∧ (mediumCond 1 0 0 ∧ hardCond 1 0 0) :=
  ⟨by decide, hardness_rules_overlap.1 1 0 0 (by decide)⟩

lemma countChar_append (a b : String) (c : Char) :
    countChar (a ++ b) c = countChar a c + countChar b c := by
  simp [countChar, String.data_append, List.count_append]

lemma countChar_of_not_mem {f : String} {c : Char} (h : c ∉ f.data) :
    countChar f c = 0 := by
  simp [countChar, List.count_eq_zero.mpr h]

lemma no_clauses_eq_two_add_optCount (sql_dict : List (String × Val)) :
    no_clauses sql_dict = 2 + optCount sql_dict := by
  simp only [no_clauses, optCount, optKeys, clauseInc, List.countP_cons, List.countP_nil]
  split_ifs <;> omega

/-- C2 counterexample: on a minimal query (select and from only) with the
default delimiter, which occurs in no fragment, the summary contains 11
delimiter characters, not 10: the from category contributes two
delimiter-terminated fields (the keyword and the table count). -/
theorem form_clause_str_ten_fields_cex :
    form_clause_str minimalSql "|" = some "SELECT |FROM |1|||||||||2" ∧
    countChar "SELECT |FROM |1|||||||||2" '|' = 11 ∧
    countChar "SELECT |FROM |1|||||||||2" '|' ≠ 10 :=
  ⟨rfl, by decide, by decide⟩

/-- C2 amended: every successful summary consists of exactly 11
delimiter-terminated fields, in the fixed order select, from-keyword,
table-count, where, group-by, having, order-by, limit, union, intersect,
except, followed by the trailing clause-count field after the last
delimiter; when the delimiter is a single character that occurs in no
field, the output contains exactly 11 delimiter characters. -/
theorem form_clause_str_eleven_fields :
    ∀ (sql_dict : List (String × Val)) (d s : String),
    form_clause_str sql_dict d = some s →
    ∃ f1 f2 f3 f4 f5 f6 f7 f8 f9 f10 f11 : String,
      s = f1 ++ d ++ f2 ++ d ++ f3 ++ d ++ f4 ++ d ++ f5 ++ d ++ f6 ++ d ++ f7
        ++ d ++ f8 ++ d ++ f9 ++ d ++ f10 ++ d ++ f11 ++ d
        ++ toString (no_clauses sql_dict) ∧
      ∀ c : Char, d = String.mk [c] →
        (∀ f ∈ [f1, f2, f3, f4, f5, f6, f7, f8, f9, f10, f11,
          toString (no_clauses sql_dict)], c ∉ f.data) →
        countChar s c = 11 := by
  intro sql_dict d s h
  simp only [form_clause_str, Option.bind_eq_some, bind, Option.some.injEq, pure] at h
  obtain ⟨sel, hsel, nt, hnt, w, hw, hv, hhv, ob, hob, lim, hlim, hs⟩ := h
  subst hs
  refine ⟨sel, "FROM ", toString nt, w, kwFrag "GROUP BY " (dictGet sql_dict "groupBy"),
    hv, ob, lim, kwFrag "UNION " (dictGet sql_dict "union"),
    kwFrag "INTERSECT " (dictGet sql_dict "intersect"),
    kwFrag "EXCEPT " (dictGet sql_dict "except"), rfl, ?_⟩
  intro c hdc hnone
  subst hdc
  simp only [List.mem_cons, List.not_mem_nil, or_false, forall_eq_or_imp, forall_eq] at hnone
  obtain ⟨n1, n2, n3, n4, n5, n6, n7, n8, n9, n10, n11, n12⟩ := hnone
  have n2f : c ∉ ("FROM " : String).data := by simpa using n2
  have hone : countChar (String.mk [c]) c = 1 := by simp [countChar]
  simp only [countChar_append, hone,
    countChar_of_not_mem n1, countChar_of_not_mem n2f, countChar_of_not_mem n3,
    countChar_of_not_mem n4, countChar_of_not_mem n5, countChar_of_not_mem n6,
    countChar_of_not_mem n7, countChar_of_not_mem n8, countChar_of_not_mem n9,
    countChar_of_not_mem n10, countChar_of_not_mem n11, countChar_of_not_mem n12]

/-- Witness for the amended C2 theorem at the minimal query. -/
theorem form_clause_str_eleven_fields_w :
    ∃ f1 f2 f3 f4 f5 f6 f7 f8 f9 f10 f11 : String,
      "SELECT |FROM |1|||||||||2" = f1 ++ "|" ++ f2 ++ "|" ++ f3 ++ "|" ++ f4 ++ "|"
        ++ f5 ++ "|" ++ f6 ++ "|" ++ f7 ++ "|" ++ f8 ++ "|" ++ f9 ++ "|" ++ f10 ++ "|"
        ++ f11 ++ "|" ++ toString (no_clauses minimalSql) ∧
      ∀ c : Char, ("|" : String) = String.mk [c] →
        (∀ f ∈ [f1, f2, f3, f4, f5, f6, f7, f8, f9, f10, f11,
          toString (no_clauses minimalSql)], c ∉ f.data) →
        countChar "SELECT |FROM |1|||||||||2" c = 11 :=
  form_clause_str_eleven_fields minimalSql "|" "SELECT |FROM |1|||||||||2" rfl

/-- C4: the trailing field of every successful summary is the decimal
string of 2 plus the number of truthy optional clauses (the count is
pre-charged with 2 for select and from); on the minimal query with only
select and from populated the output ends with the clause count 2. -/
theorem form_clause_str_trailing_count :
    (∀ (sql_dict : List (String × Val)) (d s : String),
      form_clause_str sql_dict d = some s →
      ∃ body, s = body ++ d ++ toString (2 + optCount sql_dict)) ∧
    (∀ sql_dict : List (String × Val), no_clauses sql_dict = 2 + optCount sql_dict) ∧
    form_clause_str minimalSql "|" = some "SELECT |FROM |1|||||||||2" ∧
    ("2").data <:+ ("SELECT |FROM |1|||||||||2").data := by
  refine ⟨?_, no_clauses_eq_two_add_optCount, rfl, by decide⟩
  intro sql_dict d s h
  simp only [form_clause_str, Option.bind_eq_some, bind, Option.some.injEq, pure] at h
  obtain ⟨sel, hsel, nt, hnt, w, hw, hv, hhv, ob, hob, lim, hlim, hs⟩ := h
  rw [no_clauses_eq_two_add_optCount] at hs
  exact ⟨_, hs.symm⟩

/-- Witness for C4's trailing-count theorem at the minimal query. -/
theorem form_clause_str_trailing_count_w :
    ∃ body, "SELECT |FROM |1|||||||||2" = body ++ "|" ++ toString (2 + optCount minimalSql) :=
  form_clause_str_trailing_count.1 minimalSql "|" "SELECT |FROM |1|||||||||2" rfl

lemma whereFrag_falsy {v : Val} (h : truthy v = false) : whereFrag v = some "" := by
  simp [whereFrag, h]

lemma havingFrag_falsy {v : Val} (h : truthy v = false) : havingFrag v = some "" := by
  simp [havingFrag, h]

lemma orderByFrag_falsy {v : Val} (h : truthy v = false) : orderByFrag v = some "" := by
  simp [orderByFrag, h]

lemma limitFrag_falsy {v : Val} (h : truthy v = false) : limitFrag v = some "" := by
  simp [limitFrag, h]

lemma kwFrag_falsy (kw : String) {v : Val} (h : truthy v = false) : kwFrag kw v = "" := by
  simp [kwFrag, h]

/-- C10: on two query dicts that agree on every key except an optional
clause key `k`, where one binds `k` to a falsy value and the other has `k`
absent (`get` returns `None`), the summarizer produces identical output;
in particular a falsy `limit` (0) or `where` (empty sequence) emits no
fragment. -/
theorem form_clause_str_falsy_as_absent :
    (∀ (sql1 sql2 : List (String × Val)) (k d : String),
      k ∈ optKeys →
      truthy (dictGet sql1 k) = false →
      dictGet sql2 k = .vnull →
      (∀ key, key ≠ k → dictGet sql1 key = dictGet sql2 key) →
      form_clause_str sql1 d = form_clause_str sql2 d) ∧
    limitFrag (.vint 0) = some "" ∧
    whereFrag (.vlist []) = some "" := by
  refine ⟨?_, rfl, rfl⟩
  intro sql1 sql2 k d hk h1 h2 hag
  have h2t : truthy (dictGet sql2 k) = false := by rw [h2]; rfl
  simp only [optKeys, List.mem_cons, List.not_mem_nil, or_false] at hk
  rcases hk with hk | hk | hk | hk | hk | hk | hk | hk <;> subst hk
  · simp only [form_clause_str, no_clauses, clauseInc,
      hag "select" (by decide), hag "from" (by decide), hag "groupBy" (by decide),
      hag "having" (by decide), hag "orderBy" (by decide), hag "limit" (by decide),
      hag "union" (by decide), hag "intersect" (by decide), hag "except" (by decide),
      whereFrag_falsy h1, whereFrag_falsy h2t, h1, h2t]
  · simp only [form_clause_str, no_clauses, clauseInc,
      hag "select" (by decide), hag "from" (by decide), hag "where" (by decide),
      hag "having" (by decide), hag "orderBy" (by decide), hag "limit" (by decide),
      hag "union" (by decide), hag "intersect" (by decide), hag "except" (by decide),
      kwFrag_falsy "GROUP BY " h1, kwFrag_falsy "GROUP BY " h2t, h1, h2t]
  · simp only [form_clause_str, no_clauses, clauseInc,
      hag "select" (by decide), hag "from" (by decide), hag "where" (by decide),
      hag "groupBy" (by decide), hag "orderBy" (by decide), hag "limit" (by decide),
      hag "union" (by decide), hag "intersect" (by decide), hag "except" (by decide),
      havingFrag_falsy h1, havingFrag_falsy h2t, h1, h2t]
  · simp only [form_clause_str, no_clauses, clauseInc,
      hag "select" (by decide), hag "from" (by decide), hag "where" (by decide),
      hag "groupBy" (by decide), hag "having" (by decide), hag "limit" (by decide),
      hag "union" (by decide), hag "intersect" (by decide), hag "except" (by decide),
      orderByFrag_falsy h1, orderByFrag_falsy h2t, h1, h2t]
  · simp only [form_clause_str, no_clauses, clauseInc,
      hag "select" (by decide), hag "from" (by decide), hag "where" (by decide),
      hag "groupBy" (by decide), hag "having" (by decide), hag "orderBy" (by decide),
      hag "union" (by decide), hag "intersect" (by decide), hag "except" (by decide),
      limitFrag_falsy h1, limitFrag_falsy h2t, h1, h2t]
  · simp only [form_clause_str, no_clauses, clauseInc,
      hag "select" (by decide), hag "from" (by decide), hag "where" (by decide),
      hag "groupBy" (by decide), hag "having" (by decide), hag "orderBy" (by decide),
      hag "limit" (by decide), hag "intersect" (by decide), hag "except" (by decide),
      kwFrag_falsy "UNION " h1, kwFrag_falsy "UNION " h2t, h1, h2t]
  · simp only [form_clause_str, no_clauses, clauseInc,
      hag "select" (by decide), hag "from" (by decide), hag "where" (by decide),
      hag "groupBy" (by decide), hag "having" (by decide), hag "orderBy" (by decide),
      hag "limit" (by decide), hag "union" (by decide), hag "except" (by decide),
      kwFrag_falsy "INTERSECT " h1, kwFrag_falsy "INTERSECT " h2t, h1, h2t]
  · simp only [form_clause_str, no_clauses, clauseInc,
      hag "select" (by decide), hag "from" (by decide), hag "where" (by decide),
      hag "groupBy" (by decide), hag "having" (by decide), hag "orderBy" (by decide),
      hag "limit" (by decide), hag "union" (by decide), hag "intersect" (by decide),
      kwFrag_falsy "EXCEPT " h1, kwFrag_falsy "EXCEPT " h2t, h1, h2t]

/-- Witness for C10 at the concrete pair (`limit` bound to 0 vs absent). -/
theorem form_clause_str_falsy_as_absent_w :
    form_clause_str sqlLimit0 "|" = form_clause_str minimalSql "|" :=
  form_clause_str_falsy_as_absent.1 sqlLimit0 minimalSql "limit" "|"
    (by decide) (by rfl) (by rfl)
    (by
      intro key hkey
      unfold sqlLimit0 dictGet
      rw [List.find?_cons_of_neg]
      simp only [beq_iff_eq]
      exact fun h => hkey h.symm)

lemma subqScan_eq_any : ∀ {xs : List Val} {b : Bool},
    subqScan xs = some b → b = xs.any condHasSubq := by
  intro xs
  induction xs with
  | nil =>
    intro b h
    simp only [subqScan, Option.some.injEq] at h
    simp [h.symm]
  | cons u rest ih =>
    intro b h
    by_cases hu : isStr u = true
    · simp only [subqScan, hu, if_true] at h
      simp [List.any_cons, condHasSubq, hu, ← ih h]
    · rcases he3 : pyIndexVal u 3 with _ | e3
      · simp [subqScan, hu, he3] at h
      · by_cases hd3 : isDict e3 = true
        · simp [subqScan, hu, he3, hd3] at h
          subst h
          simp [List.any_cons, condHasSubq, hu, he3, hd3]
        · rcases he4 : pyIndexVal u 4 with _ | e4
          · simp [subqScan, hu, he3, hd3, he4] at h
          · by_cases hd4 : isDict e4 = true
            · simp [subqScan, hu, he3, hd3, he4, hd4] at h
              subst h
              simp [List.any_cons, condHasSubq, hu, he3, he4, hd3, hd4]
            · simp [subqScan, hu, he3, hd3, he4, hd4] at h
              simp [List.any_cons, condHasSubq, hu, he3, he4, hd3, hd4, ← ih h]

/-- C5: for every truthy where clause that the summarizer handles without
crashing, the where fragment starts with `WHERE `, contains `AND ` iff the
token `and` occurs among the top-level units, contains `OR ` iff `or`
occurs there, and contains `SUBQUERY ` exactly once when some non-string
unit has a nested dict at positional element 3 or 4 and not at all
otherwise — hence never more than once. -/
theorem whereFrag_spec :
    ∀ (xs : List Val) (s : String),
      truthy (.vlist xs) = true →
      whereFrag (.vlist xs) = some s →
      (("WHERE ").data <+: s.data) ∧
      (hasSub "AND " s ↔ hasTok "and" xs = true) ∧
      (hasSub "OR " s ↔ hasTok "or" xs = true) ∧
      countOcc ("SUBQUERY ").data s.data = (if xs.any condHasSubq then 1 else 0) ∧
      countOcc ("SUBQUERY ").data s.data ≤ 1 := by
  intro xs s ht hs
  simp only [whereFrag, ht, if_true, expectList, Option.bind_eq_some, bind, pure,
    Option.some.injEq] at hs
  obtain ⟨xs2, hxs2, b, hb, hs⟩ := hs
  subst hxs2
  have hbb := subqScan_eq_any hb
  subst hbb
  subst hs
  cases ha : hasTok "and" xs <;> cases ho : hasTok "or" xs <;>
    cases hq : xs.any condHasSubq <;> decide

/-- Witness for C5's where-fragment theorem at the concrete clause `whereW`. -/
theorem whereFrag_spec_w :
    (("WHERE ").data <+: ("WHERE AND ").data) ∧
    (hasSub "AND " "WHERE AND " ↔ hasTok "and" whereW = true) ∧
    (hasSub "OR " "WHERE AND " ↔ hasTok "or" whereW = true) ∧
    countOcc ("SUBQUERY ").data ("WHERE AND ").data =
      (if whereW.any condHasSubq then 1 else 0) ∧
    countOcc ("SUBQUERY ").data ("WHERE AND ").data ≤ 1 :=
  whereFrag_spec whereW "WHERE AND " rfl rfl

/-! ## Prediction formatter (`format_predictions.py`) and dataset reporter
driver (`analyse_dataset`, analyse_dataset.py lines 127-170) -/

lemma optionMap_spec {α β : Type} (f : α → Option β) :
    ∀ (l : List α) (out : List β), optionMap f l = some out →
      out.length = l.length ∧
      ∀ i a, l.get? i = some a → ∃ b, out.get? i = some b ∧ f a = some b := by
  intro l
  induction l with
  | nil =>
    intro out h
    simp only [optionMap, Option.some.injEq] at h
    subst h
    exact ⟨rfl, by intro i a hi; simp at hi⟩
  | cons a l ih =>
    intro out h
    simp only [optionMap, Option.bind_eq_some, bind, pure, Option.some.injEq] at h
    obtain ⟨b, hb, bs, hbs, hout⟩ := h
    subst hout
    obtain ⟨hlen, hidx⟩ := ih bs hbs
    refine ⟨by simp [hlen], ?_⟩
    intro i x hx
    cases i with
    | zero =>
      simp only [List.get?] at hx
      injection hx with hx
      subst hx
      exact ⟨b, rfl, hb⟩
    | succ n =>
      simp only [List.get?] at hx ⊢
      exact hidx n x hx

lemma expectStr_eq_some {v : Val} {s : String} (h : expectStr v = some s) :
    v = .vstr s := by
  cases v <;> simp [expectStr] at h
  simp [h]

/-- C6: the prediction formatter produces one output line per record in
input order, each line being the last segment of the record's prediction
string split on the separator `| `; the output path is `predictions.sql`
joined onto the input file's directory; and on the one-record example the
sole output line is `SELECT x FROM y`. -/
theorem format_predictions_spec :
    (∀ (preds : List Val) (out : List String),
      format_predictions preds = some out →
      out.length = preds.length ∧
      ∀ i p, preds.get? i = some p →
        ∃ line, out.get? i = some line ∧ extractPrediction p = some line) ∧
    (∀ (p : Val) (line : String), extractPrediction p = some line →
      ∃ pr, pyGetItem p "prediction" = some (.vstr pr) ∧
        (pySplitStr "| " pr).getLast? = some line) ∧
    (∀ f : String,
      get_sql_predictions_filename f = pyJoin (pyDirname f) "predictions.sql") ∧
    get_sql_predictions_filename "results/preds.json" = "results/predictions.sql" ∧
    format_predictions [.vdict [("prediction", .vstr "explanation | SELECT x FROM y")]] =
      some ["SELECT x FROM y"] := by
  refine ⟨fun preds out h => optionMap_spec extractPrediction preds out h,
    ?_, fun f => rfl, rfl, rfl⟩
  intro p line h
  simp only [extractPrediction, Option.bind_eq_some, bind, pure] at h
  obtain ⟨v, hv, s, hs, hlast⟩ := h
  have hvs := expectStr_eq_some hs
  subst hvs
  exact ⟨s, hv, hlast⟩

/-- Witness for C6's formatter theorem at the one-record example. -/
theorem format_predictions_spec_w :
    ∃ pr, pyGetItem (.vdict [("prediction", .vstr "explanation | SELECT x FROM y")])
        "prediction" = some (.vstr pr) ∧
      (pySplitStr "| " pr).getLast? = some "SELECT x FROM y" :=
  format_predictions_spec.2.1
    (.vdict [("prediction", .vstr "explanation | SELECT x FROM y")])
    "SELECT x FROM y" rfl

/-- C7: the reporter reads `spider-DK.json` from the dataset directory
exactly for the dataset name `spider_dk` and `dev.json` for every other
name, and always writes `<dataset_name>.txt` under the statistics
directory. -/
theorem analyse_dataset_paths :
    (∀ name : String, name = "spider_dk" →
      dataset_input_file name =
        "../../dataset_files/ori_dataset/" ++ name ++ "/spider-DK.json") ∧
    (∀ name : String, name ≠ "spider_dk" →
      dataset_input_file name =
        "../../dataset_files/ori_dataset/" ++ name ++ "/dev.json") ∧
    (∀ name : String,
      dataset_out_file name = "../../dataset_files/statistics/" ++ name ++ ".txt") ∧
    dataset_input_file "spider_dk" =
      "../../dataset_files/ori_dataset/spider_dk/spider-DK.json" ∧
    dataset_input_file "spider" = "../../dataset_files/ori_dataset/spider/dev.json" := by
  refine ⟨?_, ?_, fun name => rfl, rfl, rfl⟩
  · intro name h
    subst h
    rfl
  · intro name h
    simp only [dataset_input_file, if_neg h]
    rw [String.append_assoc]
    rfl

/-- Witness for C7's path theorem at the special dataset name. -/
theorem analyse_dataset_paths_w :
    dataset_input_file "spider_dk" =
      "../../dataset_files/ori_dataset/" ++ "spider_dk" ++ "/spider-DK.json" :=
  analyse_dataset_paths.1 "spider_dk" rfl

lemma suffix_ext {α : Type} {s t : List α} (a : List α) (h : s <:+ t) :
    s <:+ a ++ t :=
  h.trans (List.suffix_append a t)

/-- C8: for every counter triple of opaque counting functions, every
successful run of the reporter loop yields one line per record in input
order, each line consisting of the query text, question text, hardness
label, clause summary, then the query and question character lengths, in
that order, so each line ends with the two length fields. -/
theorem analyse_dataset_report_lines :
    ∀ (c1 c2 co : Val → Nat) (instances : List Val) (out : List String),
      analyse_lines c1 c2 co instances = some out →
      out.length = instances.length ∧
      ∀ i inst, instances.get? i = some inst →
        ∃ q qu sqlv sqld clause line,
          out.get? i = some line ∧
          pyGetItem inst "query" = some (.vstr q) ∧
          pyGetItem inst "question" = some (.vstr qu) ∧
          pyGetItem inst "sql" = some sqlv ∧
          expectDict sqlv = some sqld ∧
          form_clause_str sqld "|" = some clause ∧
          line = mkInstanceStr "|" q qu
            (eval_hardness (c1 sqlv) (c2 sqlv) (co sqlv)) clause ∧
          (" " ++ "|" ++ toString q.length ++ " " ++ "|"
            ++ toString qu.length).data <:+ line.data := by
  intro c1 c2 co instances out h
  obtain ⟨hlen, hidx⟩ := optionMap_spec _ _ _ h
  refine ⟨hlen, ?_⟩
  intro i inst hi
  obtain ⟨line, hline, hinst⟩ := hidx i inst hi
  simp only [analyse_instance, Option.bind_eq_some, bind, pure,
    Option.some.injEq] at hinst
  obtain ⟨qv, hqv, qs, hqs, quv, hquv, qus, hqus, sqlv, hsqlv, sqld, hsqld,
    clause, hcl, hmk⟩ := hinst
  have h1 := expectStr_eq_some hqs
  subst h1
  have h2 := expectStr_eq_some hqus
  subst h2
  refine ⟨qs, qus, sqlv, sqld, clause, line, hline, hqv, hquv, hsqlv, hsqld,
    hcl, hmk.symm, ?_⟩
  rw [← hmk]
  simp only [mkInstanceStr, String.data_append, List.append_assoc]
  repeat
    first
    | exact List.suffix_refl _
    | apply suffix_ext

/-- Witness for C8's reporter theorem at the one-record example with all
counter functions zero. -/
theorem analyse_dataset_report_lines_w :
    ∃ q qu sqlv sqld clause line,
      [line8].get? 0 = some line ∧
      pyGetItem record8 "query" = some (.vstr q) ∧
      pyGetItem record8 "question" = some (.vstr qu) ∧
      pyGetItem record8 "sql" = some sqlv ∧
      expectDict sqlv = some sqld ∧
      form_clause_str sqld "|" = some clause ∧
      line = mkInstanceStr "|" q qu (eval_hardness 0 0 0) clause ∧
      (" " ++ "|" ++ toString q.length ++ " " ++ "|"
        ++ toString qu.length).data <:+ line.data :=
  (analyse_dataset_report_lines (fun _ => 0) (fun _ => 0) (fun _ => 0)
    [record8] [line8] rfl).2 0 record8 rfl

/-- C9: for both entry points, any argument count other than exactly one
(full `argv` length other than 2) dispatches to the usage message and not
to a run of the analysis or formatting; with exactly one argument both
dispatch to a run on that argument. -/
theorem cli_usage_dispatch :
    ∀ argv : List String,
      (argv.length ≠ 2 →
        analyse_dataset_main argv =
          .usageMsg "analyse_dataset() takes 1 argument: the dataset name, e.g. spider" ∧
        format_predictions_main argv =
          .usageMsg "format_predictions() takes 1 argument: the predictions filename" ∧
        (∀ a, analyse_dataset_main argv ≠ .runWith a) ∧
        (∀ a, format_predictions_main argv ≠ .runWith a)) ∧
      (argv.length = 2 →
        ∃ a, analyse_dataset_main argv = .runWith a ∧
          format_predictions_main argv = .runWith a) := by
  intro argv
  constructor
  · intro h
    refine ⟨by simp [analyse_dataset_main, h], by simp [format_predictions_main, h],
      ?_, ?_⟩
    · intro a
      simp [analyse_dataset_main, h]
    · intro a
      simp [format_predictions_main, h]
  · intro h
    exact ⟨argv.getD 1 "", by simp [analyse_dataset_main, h],
      by simp [format_predictions_main, h]⟩

/-- Witness for C9's dispatch theorem at a zero-argument invocation. -/
theorem cli_usage_dispatch_w :
    analyse_dataset_main ["analyse_dataset.py"] =
      .usageMsg "analyse_dataset() takes 1 argument: the dataset name, e.g. spider" ∧
    format_predictions_main ["analyse_dataset.py"] =
      .usageMsg "format_predictions() takes 1 argument: the predictions filename" ∧
    (∀ a, analyse_dataset_main ["analyse_dataset.py"] ≠ .runWith a) ∧
    (∀ a, format_predictions_main ["analyse_dataset.py"] ≠ .runWith a) :=
  (cli_usage_dispatch ["analyse_dataset.py"]).1 (by decide)

end SeossT5
